import Mathlib

/-!
Shallow embedding of `src/mcp_server_bold/server.py` (the
`mcp-server-bold` repository): the `base_fetch` pipeline (query-string
assembly, HTTP transport outcomes, TSV/XML response parsing, exception
handling) and the `call_tool` protocol handler.

Modelling conventions:
  * Python strings are Lean `String`s; response bodies are delivered as the
    list of chunks produced by `response.aiter_bytes()` (each chunk already
    decoded, as the source decodes per chunk).
  * Python exceptions are made explicit: the body of the `try:` block is a
    value of `Except PyExc String`, and the `except` chain of `base_fetch`
    is the function `handleMessage`.  An exception that no handler catches
    is an `Except.error` of the outer function.
  * The HTTP transport is a parameter `transport : String → TransportOutcome`
    mapping the request URL to what awaiting `client.get` produced.
  * `xmltodict.parse` is a third-party library; it is a parameter
    `xmlParse : String → Except String Json` of the pipeline, so every
    theorem below holds for an arbitrary XML parser.
  * Python `str.split`, `str.splitlines`, `urllib.parse.quote` (via
    `requests.utils.quote`, safe characters `/` plus the unreserved set)
    and `json.dumps` (default options: `ensure_ascii=True`, separators
    `", "` and `": "`) are re-implemented below on `List Char`, following
    the documented Python semantics.  `splitlines` is modelled for the
    `\n`, `\r\n` and `\r` terminators.
-/

/-- UTF-8 byte sequence of a character (as natural numbers below 256),
used by the percent-encoder, mirroring how Python encodes to UTF-8
before quoting. -/
def utf8Bytes (c : Char) : List Nat :=
  let n := c.toNat
  if n < 0x80 then [n]
  else if n < 0x800 then
    [0xC0 ||| (n >>> 6), 0x80 ||| (n &&& 0x3F)]
  else if n < 0x10000 then
    [0xE0 ||| (n >>> 12), 0x80 ||| ((n >>> 6) &&& 0x3F), 0x80 ||| (n &&& 0x3F)]
  else
    [0xF0 ||| (n >>> 18), 0x80 ||| ((n >>> 12) &&& 0x3F),
     0x80 ||| ((n >>> 6) &&& 0x3F), 0x80 ||| (n &&& 0x3F)]

/-- Upper-case hexadecimal digit (as used by `urllib.parse.quote`): code
point 48 is `0`, code point 55 + 10 is `A`. -/
def hexDigitU (n : Nat) : Char :=
  if n % 16 < 10 then Char.ofNat (48 + n % 16) else Char.ofNat (55 + n % 16)

/-- Lower-case hexadecimal digit (as used by `json.dumps` unicode escapes):
code point 87 + 10 is `a`. -/
def hexDigitL (n : Nat) : Char :=
  if n % 16 < 10 then Char.ofNat (48 + n % 16) else Char.ofNat (87 + n % 16)

/-- Percent-encoding of one byte, `%XX` with upper-case hex. -/
def pctChars (b : Nat) : List Char :=
  ['%', hexDigitU (b / 16), hexDigitU b]

/-- Characters `urllib.parse.quote` leaves unchanged with the default
`safe='/'` used by `requests.utils.quote`: ASCII alphanumerics,
`_`, `.`, `-`, `~` and `/`. -/
def quoteSafe (c : Char) : Bool :=
  c.isAlphanum || c = '_' || c = '.' || c = '-' || c = '~' || c = '/'

def quoteChars : List Char → List Char
  | [] => []
  | c :: cs =>
    (if quoteSafe c then [c] else ((utf8Bytes c).map pctChars).flatten) ++ quoteChars cs

/-- Model of `requests.utils.quote` (i.e. `urllib.parse.quote` with
`safe='/'`). -/
def pyQuote (s : String) : String := String.mk (quoteChars s.data)

/-- Model of Python `str.split(sep)` for a one-character separator:
always yields one more part than there are separators; never drops
empty parts.  In particular `pySplit c "" = [""]`. -/
def pySplitAux (sep : Char) : List Char → List Char → List String
  | [], acc => [String.mk acc.reverse]
  | c :: cs, acc =>
    if c = sep then String.mk acc.reverse :: pySplitAux sep cs []
    else pySplitAux sep cs (c :: acc)

def pySplit (sep : Char) (s : String) : List String := pySplitAux sep s.data []

/-- Model of Python `str.splitlines()` for `\n`-terminated text (the
separator used throughout; Python also recognizes `\r` and other
terminators, which the bodies considered here do not contain): a
terminator ends the current line; a trailing terminator does not produce
an extra empty line; the empty string has no lines. -/
def pySplitlinesAux : List Char → List Char → List String
  | [], acc => if acc.isEmpty then [] else [String.mk acc.reverse]
  | c :: cs, acc =>
    if c = '\n' then String.mk acc.reverse :: pySplitlinesAux cs []
    else pySplitlinesAux cs (c :: acc)

def pySplitlines (s : String) : List String := pySplitlinesAux s.data []

/-- Escape of one character inside a Python `json.dumps` string literal
(default `ensure_ascii=True`): printable ASCII other than `"` and `\`
is kept, the usual short escapes are used, everything else becomes
`\uXXXX` (a surrogate pair above `0xFFFF`). -/
def uEscape (n : Nat) : List Char :=
  ['\\', 'u', hexDigitL (n / 4096), hexDigitL (n / 256), hexDigitL (n / 16), hexDigitL n]

def jsonEscapeChar (c : Char) : List Char :=
  if c = '\"' then ['\\', '\"']
  else if c = '\\' then ['\\', '\\']
  else if c = '\n' then ['\\', 'n']
  else if c = '\r' then ['\\', 'r']
  else if c = '\t' then ['\\', 't']
  else if c.toNat = 8 then ['\\', 'b']
  else if c.toNat = 12 then ['\\', 'f']
  else if 0x20 ≤ c.toNat ∧ c.toNat ≤ 0x7E then [c]
  else if c.toNat < 0x10000 then uEscape c.toNat
  else
    uEscape (0xD800 + ((c.toNat - 0x10000) >>> 10)) ++
      uEscape (0xDC00 + ((c.toNat - 0x10000) &&& 0x3FF))

def jsonQuoteChars : List Char → List Char
  | [] => []
  | c :: cs => jsonEscapeChar c ++ jsonQuoteChars cs

/-- Model of `json.dumps` applied to a Python `str`. -/
def jsonQuote (s : String) : String :=
  String.mk ('\"' :: (jsonQuoteChars s.data ++ ['\"']))

/-- JSON-serializable Python values that flow through `base_fetch`:
strings, integers, lists and (insertion-ordered) dicts. -/
inductive Json where
  | str : String → Json
  | num : Int → Json
  | arr : List Json → Json
  | obj : List (String × Json) → Json

mutual

/-- Model of `json.dumps` with its default separators `", "` / `": "`. -/
def Json.dumps : Json → String
  | .str s => jsonQuote s
  | .num n => toString n
  | .arr xs => "[" ++ dumpsList xs ++ "]"
  | .obj kvs => "\x7b" ++ dumpsObj kvs ++ "\x7d"

def dumpsList : List Json → String
  | [] => ""
  | [x] => Json.dumps x
  | x :: y :: xs => Json.dumps x ++ ", " ++ dumpsList (y :: xs)

def dumpsObj : List (String × Json) → String
  | [] => ""
  | [(k, v)] => jsonQuote k ++ ": " ++ Json.dumps v
  | (k, v) :: kv :: kvs => jsonQuote k ++ ": " ++ Json.dumps v ++ ", " ++ dumpsObj (kv :: kvs)

end

/-- Python dict assignment `d[k] = v`: updates the value in place when the
key exists (keeping its position), appends the pair otherwise. -/
def dictInsert (d : List (String × String)) (k v : String) : List (String × String) :=
  if (d.lookup k).isSome then
    d.map (fun kv => if kv.1 = k then (k, v) else kv)
  else d ++ [(k, v)]

/-- Python dict construction from a sequence of pairs (as in `dict(zip(..))`
or `{**a, **b}`): later occurrences of a key overwrite earlier ones but
keep the original position. -/
def pyDict (pairs : List (String × String)) : List (String × String) :=
  pairs.foldl (fun d kv => dictInsert d kv.1 kv.2) []

/-- Python `d.pop(k)`: the value together with the remaining dict, or `none`
(a `KeyError`) when the key is absent. -/
def dictPop (d : List (String × String)) (k : String) :
    Option (String × List (String × String)) :=
  match d.lookup k with
  | none => none
  | some v => some (v, d.filter (fun kv => kv.1 != k))

/-- Exceptions that can be raised inside the `try:` block of `base_fetch`,
tagged with the Python `str(exc)` text (plus the response body for
`HTTPStatusError`, since `exc.response.text` is available to handlers). -/
inductive PyExc where
  | timeoutExc (msg : String)
  | cancelledExc (msg : String)
  | httpStatusExc (status : Nat) (bodyText : String)
  | requestExc (msg : String)
  | valueError (msg : String)
  | indexError (msg : String)
  | unboundLocal (msg : String)
  | otherExc (msg : String)
deriving DecidableEq

/-- Transport outcomes of awaiting `client.get(query_url)`: a response
(status code plus decoded body chunks), or one of the exception kinds the
source distinguishes, or any other exception. -/
inductive TransportOutcome where
  | success (status : Nat) (chunks : List String)
  | timeoutErr (msg : String)
  | cancelledErr (msg : String)
  | requestErr (msg : String)
  | otherErr (msg : String)

def API_BASE_URL : String := "http://v3.boldsystems.org/index.php/API_Public/"

def DEFAULT_PARAMETERS : List (String × String) := [("format", "tsv")]

/-- One TSV record: `dict(zip(headers, line.split('\t')))` from
`server.py` line 109. -/
def tsvRecord (headers : List String) (line : String) : List (String × String) :=
  pyDict (headers.zip (pySplit '\t' line))

/-- The TSV chunk loop of `base_fetch` (lines 102-109): each chunk is split
into lines; the first line of the first chunk becomes the header row;
for every chunk only `lines[1:]` contribute records (the source applies
`lines[1:]` to later chunks as well, so their first lines are dropped —
reproduced faithfully).  `lines[0]` on a chunk with no lines raises
`IndexError`. -/
def parseTsvGo (headers : Option (List String))
    (acc : List (List (String × String))) :
    List String → Except PyExc (List (List (String × String)))
  | [] => .ok acc
  | chunk :: rest =>
    let lines := pySplitlines chunk
    match headers with
    | none =>
      match lines with
      | [] => .error (.indexError "list index out of range")
      | l0 :: _ =>
        let hs := pySplit '\t' l0
        parseTsvGo (some hs) (acc ++ (lines.drop 1).map (tsvRecord hs)) rest
    | some hs => parseTsvGo (some hs) (acc ++ (lines.drop 1).map (tsvRecord hs)) rest

def parseTsvChunks (chunks : List String) :
    Except PyExc (List (List (String × String))) :=
  parseTsvGo none [] chunks

/-- The XML chunk loop of `base_fetch` (lines 112-115): chunks accumulate
and the whole accumulated text is re-parsed after every chunk; a parse
failure raises (an `Exception`-derived error, caught by the catch-all
handler); with no chunks at all, `json_data` is never bound and the
final `json.dumps(json_data)` raises `UnboundLocalError`. -/
def xmlChunksGo (xmlParse : String → Except String Json)
    (last : Option Json) (acc : String) : List String → Except PyExc Json
  | [] =>
    match last with
    | none => .error (.unboundLocal "cannot access local variable json_data")
    | some j => .ok j
  | chunk :: rest =>
    let acc2 := acc ++ chunk
    match xmlParse acc2 with
    | .error m => .error (.otherExc m)
    | .ok j => xmlChunksGo xmlParse (some j) acc2 rest

def xmlParseChunks (xmlParse : String → Except String Json)
    (chunks : List String) : Except PyExc Json :=
  xmlChunksGo xmlParse none "" chunks

def recordJson (r : List (String × String)) : Json :=
  Json.obj (r.map (fun kv => (kv.1, Json.str kv.2)))

/-- The body of the `try:` block of `base_fetch` (lines 92-119): await the
transport, `raise_for_status()` (raises `HTTPStatusError` for any
non-2xx status), then dispatch on the `format` parameter; an unsupported
format raises `ValueError("Unsupported format requested.")`; the result
is the `json.dumps` of the parsed data. -/
def tryFetch (xmlParse : String → Except String Json)
    (outcome : TransportOutcome) (fmt : Option String) : Except PyExc String :=
  match outcome with
  | .timeoutErr m => .error (.timeoutExc m)
  | .cancelledErr m => .error (.cancelledExc m)
  | .requestErr m => .error (.requestExc m)
  | .otherErr m => .error (.otherExc m)
  | .success status chunks =>
    if 200 ≤ status ∧ status < 300 then
      if fmt = some "tsv" then
        match parseTsvChunks chunks with
        | .error e => .error e
        | .ok records => .ok (Json.dumps (Json.arr (records.map recordJson)))
      else if fmt = some "xml" then
        match xmlParseChunks xmlParse chunks with
        | .error e => .error e
        | .ok j => .ok (Json.dumps j)
      else .error (.valueError "Unsupported format requested.")
    else .error (.httpStatusExc status (String.join chunks))

/-- The `except` chain of `base_fetch` (lines 120-141): the message placed
in the returned `\x7b"message": ...\x7d` payload for each exception kind.
`ValueError`, `IndexError`, `UnboundLocalError` and every other
`Exception` fall to the catch-all `except Exception` arm. -/
def handleMessage : PyExc → String
  | .timeoutExc m => m ++ ", likely need to narrow search to fewer specimen"
  | .cancelledExc m => m ++ ", likely need to narrow search to fewer specimen"
  | .httpStatusExc status _ => "HTTP error occurred: " ++ toString status
  | .requestExc m => "HTTP RequestError occurred: " ++ m
  | .valueError m => "Error occurred: " ++ m
  | .indexError m => "Error occurred: " ++ m
  | .unboundLocal m => "Error occurred: " ++ m
  | .otherExc m => "Error occurred: " ++ m

/-- The whole `try/except` of `base_fetch`: every caught exception becomes
the JSON dump of a single-key `message` object returned normally. -/
def runFetch (xmlParse : String → Except String Json)
    (outcome : TransportOutcome) (fmt : Option String) : String :=
  match tryFetch xmlParse outcome fmt with
  | .ok s => s
  | .error e => Json.dumps (Json.obj [("message", Json.str (handleMessage e))])

/-- Query-string assembly of `base_fetch` (lines 85-89): skip empty values,
percent-encode each kept value, join `key=value` pairs with `&`. -/
def build_query_string (query_params : List (String × String)) : String :=
  String.intercalate "&"
    ((query_params.filter (fun kv => kv.2 != "")).map
      (fun kv => kv.1 ++ "=" ++ pyQuote kv.2))

/-- Model of `base_fetch` (lines 72-141).  `kwargs` is the keyword-argument
mapping; `{**DEFAULT_PARAMETERS, **kwargs}` is merged, `search` is popped
(`KeyError`, uncaught, when absent — the pop happens before the `try:`),
the query string and URL are built, and the `try/except` body runs on
the transport outcome for that URL. -/
def base_fetch (xmlParse : String → Except String Json)
    (transport : String → TransportOutcome)
    (kwargs : List (String × String)) : Except String String :=
  let query_params := pyDict (DEFAULT_PARAMETERS ++ kwargs)
  match dictPop query_params "search" with
  | none => .error "KeyError: search"
  | some (search, query_params) =>
    let query_string := build_query_string query_params
    let query_url := API_BASE_URL ++ search ++ "?" ++ query_string
    .ok (runFetch xmlParse (transport query_url) (query_params.lookup "format"))

namespace BoldTools

def SPECIMEN : String := "specimen-search"

def SEQUENCE_SPECIMEN : String := "combined-search"

end BoldTools

/-- Model of `mcp.types.TextContent` as used here: a `type` tag (always
`"text"`) and the text payload. -/
structure TextContent where
  type : String
  text : String
deriving DecidableEq

/-- Argument preprocessing of `call_tool` (lines 170-175): drop `None`
values, then set `format` to `tsv` when absent. -/
def toolParams (arguments : List (String × Option String)) : List (String × String) :=
  let query_params := pyDict (arguments.filterMap (fun kv => kv.2.map (fun v => (kv.1, v))))
  if (query_params.lookup "format").isSome then query_params
  else dictInsert query_params "format" "tsv"

/-- Model of the `call_tool` handler (lines 168-198): drop `None`-valued
arguments, default `format` to `tsv`, dispatch on the tool name (adding
the `search` endpoint parameter), and wrap the `base_fetch` result in
`json.dumps` again behind a fixed prefix; an unrecognized tool name
raises `ValueError` to the protocol boundary. -/
def call_tool (xmlParse : String → Except String Json)
    (transport : String → TransportOutcome)
    (name : String) (arguments : List (String × Option String)) :
    Except String (List TextContent) :=
  let query_params := toolParams arguments
  if name = BoldTools.SPECIMEN then
    match base_fetch xmlParse transport (dictInsert query_params "search" "specimen") with
    | .error e => .error e
    | .ok specimen_data =>
      .ok [{ type := "text",
             text := "Specimen returned:\n" ++ Json.dumps (Json.str specimen_data) }]
  else if name = BoldTools.SEQUENCE_SPECIMEN then
    match base_fetch xmlParse transport (dictInsert query_params "search" "combined") with
    | .error e => .error e
    | .ok combined_data =>
      .ok [{ type := "text",
             text := "Specimen with sequences returned:\n" ++ Json.dumps (Json.str combined_data) }]
  else .error ("Unknown tool: " ++ name)

/-- The fields of the pydantic `BoldQuery` model, all defaulting to the
empty string. -/
structure BoldQuery where
  taxon : String := ""
  geo : String := ""
  ids : String := ""
  bin : String := ""
  container : String := ""
  institution : String := ""
  researchers : String := ""

/-- The pydantic `BoldSpecQuery` model: `BoldQuery` plus `format`. -/
structure BoldSpecQuery extends BoldQuery where
  format : String := "tsv"

/-- The field mapping of a `BoldSpecQuery` in pydantic declaration order
(parent fields first, then `format`). -/
def BoldSpecQuery.toDict (q : BoldSpecQuery) : List (String × String) :=
  [("taxon", q.taxon), ("geo", q.geo), ("ids", q.ids), ("bin", q.bin),
   ("container", q.container), ("institution", q.institution),
   ("researchers", q.researchers), ("format", q.format)]

/-- An XML parser that always fails; used to instantiate theorems whose
statements do not depend on the XML branch. -/
def xmlParseNone : String → Except String Json := fun _ => .error "no parser"

/-! ### Association-list lemmas for the Python dict model -/

theorem lookup_isSome_iff {k : String} :
    ∀ {l : List (String × String)}, (l.lookup k).isSome = true ↔ k ∈ l.map Prod.fst := by
  intro l
  induction l with
  | nil => simp [List.lookup]
  | cons kv t ih =>
    obtain ⟨a, b⟩ := kv
    by_cases h : k = a
    · subst h
      simp [List.lookup]
    · have hb : (k == a) = false := by simp [h]
      simp [List.lookup, hb, ih, h]

theorem mem_keys_dictInsert (d : List (String × String)) (k v a : String) :
    a ∈ (dictInsert d k v).map Prod.fst ↔ a ∈ d.map Prod.fst ∨ a = k := by
  unfold dictInsert
  by_cases h : (d.lookup k).isSome = true
  · rw [if_pos h]
    have hk : k ∈ d.map Prod.fst := lookup_isSome_iff.mp h
    have hmap : (d.map (fun kv => if kv.1 = k then (k, v) else kv)).map Prod.fst
        = d.map Prod.fst := by
      rw [List.map_map]
      refine List.map_congr_left ?_
      intro kv _
      by_cases hkv : kv.1 = k
      · simp [hkv]
      · simp [hkv]
    rw [hmap]
    constructor
    · exact Or.inl
    · rintro (ha | rfl)
      · exact ha
      · exact hk
  · rw [if_neg h]
    simp

theorem mem_keys_pyDict_foldl (l : List (String × String)) :
    ∀ (d : List (String × String)) (a : String),
      a ∈ ((l.foldl (fun d kv => dictInsert d kv.1 kv.2) d).map Prod.fst)
        ↔ a ∈ d.map Prod.fst ∨ a ∈ l.map Prod.fst := by
  induction l with
  | nil => simp
  | cons kv t ih =>
    intro d a
    simp only [List.foldl_cons, List.map_cons, List.mem_cons]
    rw [ih, mem_keys_dictInsert]
    tauto

theorem mem_keys_pyDict (l : List (String × String)) (a : String) :
    a ∈ (pyDict l).map Prod.fst ↔ a ∈ l.map Prod.fst := by
  unfold pyDict
  rw [mem_keys_pyDict_foldl]
  simp

theorem dictPop_isSome (d : List (String × String)) (k : String)
    (h : k ∈ d.map Prod.fst) : ∃ v d2, dictPop d k = some (v, d2) := by
  have hs : (d.lookup k).isSome = true := lookup_isSome_iff.mpr h
  obtain ⟨v, hv⟩ := Option.isSome_iff_exists.mp hs
  exact ⟨v, d.filter (fun kv => kv.1 != k), by rw [dictPop, hv]⟩

/-- Unfolding of `base_fetch` once the `search` pop is known to succeed. -/
theorem base_fetch_pop (xmlParse : String → Except String Json)
    (transport : String → TransportOutcome) (kwargs : List (String × String))
    (sv : String) (qp2 : List (String × String))
    (hpop : dictPop (pyDict (DEFAULT_PARAMETERS ++ kwargs)) "search" = some (sv, qp2)) :
    base_fetch xmlParse transport kwargs
      = .ok (runFetch xmlParse
          (transport (API_BASE_URL ++ sv ++ "?" ++ build_query_string qp2))
          (qp2.lookup "format")) := by
  simp only [base_fetch]
  rw [hpop]

/-- With a `search` key among the keyword arguments, `base_fetch` always
returns normally. -/
theorem base_fetch_ok (xmlParse : String → Except String Json)
    (transport : String → TransportOutcome) (kwargs : List (String × String))
    (h : "search" ∈ kwargs.map Prod.fst) :
    ∃ sv qp2,
      dictPop (pyDict (DEFAULT_PARAMETERS ++ kwargs)) "search" = some (sv, qp2) ∧
      base_fetch xmlParse transport kwargs
        = .ok (runFetch xmlParse
            (transport (API_BASE_URL ++ sv ++ "?" ++ build_query_string qp2))
            (qp2.lookup "format")) := by
  have hmem : "search" ∈ (pyDict (DEFAULT_PARAMETERS ++ kwargs)).map Prod.fst := by
    rw [mem_keys_pyDict]
    simp only [List.map_append, List.mem_append]
    exact Or.inr h
  obtain ⟨v, d2, hpop⟩ := dictPop_isSome _ _ hmem
  exact ⟨v, d2, hpop, base_fetch_pop _ _ _ _ _ hpop⟩

/-! ### Percent-encoding lemmas -/

theorem hexDigitU_ne_amp (n : Nat) : hexDigitU n ≠ '&' := by
  unfold hexDigitU
  have h16 : n % 16 < 16 := Nat.mod_lt _ (by omega)
  set m := n % 16 with hm
  interval_cases m <;> decide

theorem amp_not_mem_pctChars (b : Nat) : '&' ∉ pctChars b := by
  intro hmem
  simp only [pctChars, List.mem_cons, List.not_mem_nil, or_false] at hmem
  rcases hmem with h | h | h
  · exact absurd h.symm (by decide)
  · exact hexDigitU_ne_amp (b / 16) h.symm
  · exact hexDigitU_ne_amp b h.symm

theorem amp_not_mem_quoteChars : ∀ l : List Char, '&' ∉ quoteChars l := by
  intro l
  induction l with
  | nil => simp [quoteChars]
  | cons c cs ih =>
    simp only [quoteChars, List.mem_append]
    rintro (hin | hin)
    · by_cases hsafe : quoteSafe c
      · rw [if_pos hsafe] at hin
        simp only [List.mem_singleton] at hin
        rw [← hin] at hsafe
        exact absurd hsafe (by decide)
      · rw [if_neg hsafe] at hin
        obtain ⟨sub, hsub, hmem⟩ := List.mem_flatten.mp hin
        obtain ⟨b, _, rfl⟩ := List.mem_map.mp hsub
        exact amp_not_mem_pctChars b hmem
    · exact ih hin

theorem amp_not_mem_pyQuote (s : String) : '&' ∉ (pyQuote s).data :=
  amp_not_mem_quoteChars s.data

/-! ### The serialized forms of arrays and objects are distinguishable -/

theorem dumps_arr_head (xs : List Json) :
    (Json.dumps (Json.arr xs)).data.head? = some '[' := by
  show (("[" ++ dumpsList xs ++ "]")).data.head? = some '['
  rw [String.data_append, String.data_append]
  rfl

theorem dumps_obj_head (kvs : List (String × Json)) :
    (Json.dumps (Json.obj kvs)).data.head? = some '\x7b' := by
  show (("\x7b" ++ dumpsObj kvs ++ "\x7d")).data.head? = some '\x7b'
  rw [String.data_append, String.data_append]
  rfl

/-! ### Parsing a TSV body made of a header line and n empty data rows -/

theorem pySplitlinesAux_newline (cs : List Char) (acc : List Char) :
    pySplitlinesAux ('\n' :: cs) acc = String.mk acc.reverse :: pySplitlinesAux cs [] :=
  rfl

theorem pySplitlinesAux_replicate (k : Nat) :
    ∀ acc : List Char,
      pySplitlinesAux (List.replicate (k + 1) '\n') acc
        = String.mk acc.reverse :: List.replicate k "" := by
  induction k with
  | zero =>
    intro acc
    rw [List.replicate_succ, List.replicate_zero, pySplitlinesAux_newline]
    rfl
  | succ k ih =>
    intro acc
    rw [List.replicate_succ, pySplitlinesAux_newline, ih []]
    rw [List.replicate_succ]
    rfl

theorem pySplitlines_headerBody (k : Nat) :
    pySplitlines (String.mk ('h' :: List.replicate (k + 1) '\n'))
      = "h" :: List.replicate k "" := by
  show pySplitlinesAux ('h' :: List.replicate (k + 1) '\n') [] = _
  rw [show pySplitlinesAux ('h' :: List.replicate (k + 1) '\n') []
        = pySplitlinesAux (List.replicate (k + 1) '\n') ['h'] from rfl]
  rw [pySplitlinesAux_replicate k ['h']]
  rfl

theorem parseTsv_headerBody (k : Nat) :
    parseTsvChunks [String.mk ('h' :: List.replicate (k + 1) '\n')]
      = .ok (List.replicate k [("h", "")]) := by
  show parseTsvGo none [] [String.mk ('h' :: List.replicate (k + 1) '\n')] = _
  rw [parseTsvGo]
  simp only [pySplitlines_headerBody k]
  rw [parseTsvGo]
  congr 1
  rw [List.drop_one, List.tail_cons, List.map_replicate, List.nil_append]
  rfl

/-! ### Lemmas about `dict(zip(headers, fields))` -/

theorem zip_eq_zip_take (l1 : List String) :
    ∀ l2 : List String, l1.zip l2 = (l1.take l2.length).zip l2 := by
  induction l1 with
  | nil => intro l2; simp
  | cons a t ih =>
    intro l2
    cases l2 with
    | nil => simp
    | cons b t2 => simp [ih t2]

theorem map_fst_zip_take (l1 l2 : List String) :
    (l1.zip l2).map Prod.fst = l1.take l2.length := by
  rw [zip_eq_zip_take l1 l2]
  by_cases h : l2.length ≤ l1.length
  · rw [List.map_fst_zip]
    rw [List.length_take]
    omega
  · rw [List.take_of_length_le (by omega), List.map_fst_zip]
    omega

theorem dictInsert_not_mem (d : List (String × String)) (k v : String)
    (h : k ∉ d.map Prod.fst) : dictInsert d k v = d ++ [(k, v)] := by
  unfold dictInsert
  rw [if_neg]
  intro hs
  exact h (lookup_isSome_iff.mp hs)

theorem pyDict_foldl_nodup (l : List (String × String)) :
    ∀ d : List (String × String),
      (l.map Prod.fst).Nodup → (∀ a ∈ l.map Prod.fst, a ∉ d.map Prod.fst) →
      l.foldl (fun d kv => dictInsert d kv.1 kv.2) d = d ++ l := by
  induction l with
  | nil => intro d _ _; simp
  | cons kv t ih =>
    intro d hnd hdisj
    simp only [List.foldl_cons]
    have hk : kv.1 ∉ d.map Prod.fst := hdisj kv.1 (by simp)
    rw [dictInsert_not_mem d kv.1 kv.2 hk]
    rw [ih (d ++ [(kv.1, kv.2)]) (by simpa using hnd.of_cons)]
    · simp
    · intro a ha
      simp only [List.map_append, List.mem_append, List.map_cons, List.map_nil,
        List.mem_cons, List.not_mem_nil, or_false]
      rintro (hd | hk1)
      · exact hdisj a (by simp [ha]) hd
      · exact (List.nodup_cons.mp hnd).1 (hk1 ▸ ha)

theorem pyDict_of_nodup_keys (l : List (String × String))
    (h : (l.map Prod.fst).Nodup) : pyDict l = l := by
  unfold pyDict
  rw [pyDict_foldl_nodup l [] h (by simp)]
  simp

/-! ### Claim theorems -/

/-- C9 (confirmed): for every tool call whose name is neither
`specimen-search` nor `combined-search`, `call_tool` raises
`ValueError("Unknown tool: ...")` to the protocol boundary (modelled as
`Except.error`); it is never converted into a normal `ErrorPayload`
result. -/
theorem unknown_tool_raises (xmlParse : String → Except String Json)
    (transport : String → TransportOutcome) (name : String)
    (arguments : List (String × Option String))
    (h1 : name ≠ BoldTools.SPECIMEN) (h2 : name ≠ BoldTools.SEQUENCE_SPECIMEN) :
    call_tool xmlParse transport name arguments = .error ("Unknown tool: " ++ name) := by
  simp only [call_tool]
  rw [if_neg h1, if_neg h2]

/-- Witness for `unknown_tool_raises` at the concrete tool name
`"taxonomy-search"`. -/
theorem unknown_tool_raises_witness :
    call_tool xmlParseNone (fun _ => .success 200 []) "taxonomy-search" []
      = .error ("Unknown tool: " ++ "taxonomy-search") :=
  unknown_tool_raises xmlParseNone (fun _ => .success 200 []) "taxonomy-search" []
    (by decide) (by decide)

/-- C4 (confirmed): a fetch that receives a non-2xx HTTP status returns the
`ErrorPayload` whose message is `"HTTP error occurred: <status>"`: the
numeric status code is a suffix of the message, and the message is
independent of the response body chunks (conjunct three: the handler
produces the same message whatever `exc.response.text` is), so the raw
body text is never included. -/
theorem http_status_error_payload (xmlParse : String → Except String Json)
    (kwargs : List (String × String)) (sv : String) (qp2 : List (String × String))
    (status : Nat) (chunks : List String)
    (hpop : dictPop (pyDict (DEFAULT_PARAMETERS ++ kwargs)) "search" = some (sv, qp2))
    (hst : ¬(200 ≤ status ∧ status < 300)) :
    base_fetch xmlParse (fun _ => .success status chunks) kwargs
      = .ok (Json.dumps (Json.obj
          [("message", Json.str ("HTTP error occurred: " ++ toString status))])) ∧
    (toString status).data <:+ ("HTTP error occurred: " ++ toString status).data ∧
    (∀ text1 text2 : String,
      handleMessage (.httpStatusExc status text1)
        = handleMessage (.httpStatusExc status text2)) := by
  refine ⟨?_, ?_, fun t1 t2 => rfl⟩
  · rw [base_fetch_pop _ _ _ _ _ hpop]
    simp only [runFetch, tryFetch]
    rw [if_neg hst]
    rfl
  · rw [String.data_append]
    exact List.suffix_append _ _

/-- Witness for `http_status_error_payload` at status 500 with body
`"Internal Server Error"`. -/
theorem http_status_error_payload_witness :
    base_fetch xmlParseNone (fun _ => .success 500 ["Internal Server Error"])
        [("search", "specimen")]
      = .ok (Json.dumps (Json.obj
          [("message", Json.str ("HTTP error occurred: " ++ toString 500))])) ∧
    (toString 500).data <:+ ("HTTP error occurred: " ++ toString 500).data ∧
    (∀ text1 text2 : String,
      handleMessage (.httpStatusExc 500 text1) = handleMessage (.httpStatusExc 500 text2)) :=
  http_status_error_payload xmlParseNone [("search", "specimen")] "specimen"
    [("format", "tsv")] 500 ["Internal Server Error"] (by decide) (by decide)

/-- C5 (confirmed): when the transport call times out, is cancelled, or
fails with a network (`httpx.RequestError`) error, `base_fetch` returns a
classified `ErrorPayload` as a normal result (`Except.ok`, never an
uncaught exception).  The embedding issues exactly one transport call per
invocation — no retry exists in the pipeline. -/
theorem transport_error_payload (xmlParse : String → Except String Json)
    (kwargs : List (String × String)) (sv : String) (qp2 : List (String × String))
    (m : String)
    (hpop : dictPop (pyDict (DEFAULT_PARAMETERS ++ kwargs)) "search" = some (sv, qp2)) :
    base_fetch xmlParse (fun _ => .timeoutErr m) kwargs
      = .ok (Json.dumps (Json.obj
          [("message", Json.str (m ++ ", likely need to narrow search to fewer specimen"))])) ∧
    base_fetch xmlParse (fun _ => .cancelledErr m) kwargs
      = .ok (Json.dumps (Json.obj
          [("message", Json.str (m ++ ", likely need to narrow search to fewer specimen"))])) ∧
    base_fetch xmlParse (fun _ => .requestErr m) kwargs
      = .ok (Json.dumps (Json.obj
          [("message", Json.str ("HTTP RequestError occurred: " ++ m))])) := by
  refine ⟨?_, ?_, ?_⟩ <;> (rw [base_fetch_pop _ _ _ _ _ hpop]; rfl)

/-- Witness for `transport_error_payload` at a concrete timeout message. -/
theorem transport_error_payload_witness :
    base_fetch xmlParseNone (fun _ => .timeoutErr "Request timed out") [("search", "combined")]
      = .ok (Json.dumps (Json.obj
          [("message",
            Json.str ("Request timed out" ++ ", likely need to narrow search to fewer specimen"))])) ∧
    base_fetch xmlParseNone (fun _ => .cancelledErr "Request timed out") [("search", "combined")]
      = .ok (Json.dumps (Json.obj
          [("message",
            Json.str ("Request timed out" ++ ", likely need to narrow search to fewer specimen"))])) ∧
    base_fetch xmlParseNone (fun _ => .requestErr "Request timed out") [("search", "combined")]
      = .ok (Json.dumps (Json.obj
          [("message", Json.str ("HTTP RequestError occurred: " ++ "Request timed out"))])) :=
  transport_error_payload xmlParseNone [("search", "combined")] "combined"
    [("format", "tsv")] "Request timed out" (by decide)

/-- C3 (confirmed): a fetch whose `format` parameter is neither `"tsv"` nor
`"xml"` raises `ValueError("Unsupported format requested.")` — a
validation failure, not a transport failure (first conjunct: the `try:`
body fails with exactly that `ValueError`, not with any transport or
HTTP-status exception) — and `base_fetch` returns it synchronously as a
caught `ErrorPayload` (`Except.ok`, never an unhandled fault), without
defaulting to a supported format. -/
theorem unsupported_format_validation_error (xmlParse : String → Except String Json)
    (kwargs : List (String × String)) (sv f : String) (qp2 : List (String × String))
    (status : Nat) (chunks : List String)
    (hpop : dictPop (pyDict (DEFAULT_PARAMETERS ++ kwargs)) "search" = some (sv, qp2))
    (hf : qp2.lookup "format" = some f)
    (hf1 : f ≠ "tsv") (hf2 : f ≠ "xml")
    (hst : 200 ≤ status ∧ status < 300) :
    tryFetch xmlParse (.success status chunks) (some f)
      = .error (.valueError "Unsupported format requested.") ∧
    base_fetch xmlParse (fun _ => .success status chunks) kwargs
      = .ok (Json.dumps (Json.obj
          [("message", Json.str ("Error occurred: " ++ "Unsupported format requested."))])) := by
  have htry : tryFetch xmlParse (.success status chunks) (some f)
      = .error (.valueError "Unsupported format requested.") := by
    simp only [tryFetch]
    rw [if_pos hst, if_neg (by simp [hf1]), if_neg (by simp [hf2])]
  refine ⟨htry, ?_⟩
  rw [base_fetch_pop _ _ _ _ _ hpop]
  simp only [runFetch, hf, htry]
  rfl

/-- Witness for `unsupported_format_validation_error` at `format=csv`. -/
theorem unsupported_format_validation_error_witness :
    tryFetch xmlParseNone (.success 200 ["a\tb\n1\t2"]) (some "csv")
      = .error (.valueError "Unsupported format requested.") ∧
    base_fetch xmlParseNone (fun _ => .success 200 ["a\tb\n1\t2"])
        [("search", "specimen"), ("format", "csv")]
      = .ok (Json.dumps (Json.obj
          [("message", Json.str ("Error occurred: " ++ "Unsupported format requested."))])) :=
  unsupported_format_validation_error xmlParseNone
    [("search", "specimen"), ("format", "csv")] "specimen" "csv" [("format", "csv")]
    200 ["a\tb\n1\t2"] (by decide) (by decide) (by decide) (by decide) (by decide)

/-- C10 (confirmed): for every keyword-argument mapping containing a
`search` key, `base_fetch` returns normally (`Except.ok`, a JSON string)
whatever the transport outcome — including exception kinds outside the
declared taxonomy (`TransportOutcome.otherErr`, parse failures, the
unsupported-format `ValueError`); and whenever the `try:` body fails with
any exception `e`, the returned string is the JSON dump of an object with
the single key `message`. -/
theorem base_fetch_total (xmlParse : String → Except String Json)
    (outcome : TransportOutcome) (kwargs : List (String × String))
    (hs : "search" ∈ kwargs.map Prod.fst) :
    ∃ sv qp2,
      dictPop (pyDict (DEFAULT_PARAMETERS ++ kwargs)) "search" = some (sv, qp2) ∧
      base_fetch xmlParse (fun _ => outcome) kwargs
        = .ok (runFetch xmlParse outcome (qp2.lookup "format")) ∧
      (∀ e : PyExc, tryFetch xmlParse outcome (qp2.lookup "format") = .error e →
        runFetch xmlParse outcome (qp2.lookup "format")
          = Json.dumps (Json.obj [("message", Json.str (handleMessage e))])) := by
  obtain ⟨sv, qp2, hpop, hrun⟩ := base_fetch_ok xmlParse (fun _ => outcome) kwargs hs
  refine ⟨sv, qp2, hpop, hrun, ?_⟩
  intro e he
  simp only [runFetch, he]

/-- Witness for `base_fetch_total` on an out-of-taxonomy exception
(`otherErr`, the catch-all `except Exception` arm). -/
theorem base_fetch_total_witness :
    ∃ sv qp2,
      dictPop (pyDict (DEFAULT_PARAMETERS ++ [("search", "specimen")])) "search"
        = some (sv, qp2) ∧
      base_fetch xmlParseNone (fun _ => .otherErr "surprise failure") [("search", "specimen")]
        = .ok (runFetch xmlParseNone (.otherErr "surprise failure") (qp2.lookup "format")) ∧
      (∀ e : PyExc,
        tryFetch xmlParseNone (.otherErr "surprise failure") (qp2.lookup "format") = .error e →
        runFetch xmlParseNone (.otherErr "surprise failure") (qp2.lookup "format")
          = Json.dumps (Json.obj [("message", Json.str (handleMessage e))])) :=
  base_fetch_total xmlParseNone (.otherErr "surprise failure") [("search", "specimen")]
    (by decide)

/-- C6 (confirmed): a TSV data row with fewer fields than the header row
yields a record with only the leading header keys, paired positionally —
`dict(zip(headers, fields))` is the zip of the two lists, whose keys are
`headers.take fields.length` (zipping truncates to the shorter sequence).
Concretely, header `a\tb\tc` with data row `1\t2` parses to the single
record `[("a", "1"), ("b", "2")]`, which has no key `"c"`. -/
theorem tsv_short_row_zip_truncation (headers : List String) (row : String)
    (hnd : headers.Nodup)
    (hlen : (pySplit '\t' row).length ≤ headers.length) :
    tsvRecord headers row = headers.zip (pySplit '\t' row) ∧
    (tsvRecord headers row).map Prod.fst = headers.take (pySplit '\t' row).length ∧
    parseTsvChunks ["a\tb\tc\n1\t2"] = .ok [[("a", "1"), ("b", "2")]] ∧
    List.lookup "c" [("a", "1"), ("b", "2")] = none := by
  have hz : tsvRecord headers row = headers.zip (pySplit '\t' row) := by
    unfold tsvRecord
    refine pyDict_of_nodup_keys _ ?_
    rw [map_fst_zip_take]
    exact hnd.sublist (List.take_sublist _ _)
  refine ⟨hz, ?_, rfl, rfl⟩
  rw [hz, map_fst_zip_take]

/-- Witness for `tsv_short_row_zip_truncation` at the spec's example:
headers `["a", "b", "c"]`, data row `"1\t2"`. -/
theorem tsv_short_row_zip_truncation_witness :
    tsvRecord ["a", "b", "c"] "1\t2" = (["a", "b", "c"]).zip (pySplit '\t' "1\t2") ∧
    (tsvRecord ["a", "b", "c"] "1\t2").map Prod.fst
      = (["a", "b", "c"]).take (pySplit '\t' "1\t2").length ∧
    parseTsvChunks ["a\tb\tc\n1\t2"] = .ok [[("a", "1"), ("b", "2")]] ∧
    List.lookup "c" [("a", "1"), ("b", "2")] = none :=
  tsv_short_row_zip_truncation ["a", "b", "c"] "1\t2" (by decide) (by decide)

/-- C7 (confirmed): for a single-chunk TSV body, the first line supplies the
column names (split on tab) and each subsequent line is split on tab and
zipped against the headers to build one record per line; for the body
`a\tb\tc\n1\t2\t3` the parser yields exactly the one record
`[("a", "1"), ("b", "2"), ("c", "3")]`. -/
theorem tsv_header_zip_records (chunk l0 : String) (rest : List String)
    (h : pySplitlines chunk = l0 :: rest) :
    parseTsvChunks [chunk] = .ok (rest.map (tsvRecord (pySplit '\t' l0))) ∧
    parseTsvChunks ["a\tb\tc\n1\t2\t3"] = .ok [[("a", "1"), ("b", "2"), ("c", "3")]] := by
  refine ⟨?_, rfl⟩
  show parseTsvGo none [] [chunk] = _
  rw [parseTsvGo]
  simp only [h]
  rw [parseTsvGo]
  simp

/-- Witness for `tsv_header_zip_records` at the spec's round-trip body. -/
theorem tsv_header_zip_records_witness :
    parseTsvChunks ["a\tb\tc\n1\t2\t3"]
      = .ok ((["1\t2\t3"]).map (tsvRecord (pySplit '\t' "a\tb\tc"))) ∧
    parseTsvChunks ["a\tb\tc\n1\t2\t3"] = .ok [[("a", "1"), ("b", "2"), ("c", "3")]] :=
  tsv_header_zip_records "a\tb\tc\n1\t2\t3" "a\tb\tc" ["1\t2\t3"] rfl

/-- C8 (confirmed): for a `BoldSpecQuery` whose fields are all empty except
`format`, the assembled query string is exactly `format=<value>` (the
value percent-encoded) and contains no `&` character; in general every
empty-valued field is skipped and each kept value is percent-encoded and
joined as `key=value` pairs (the percent-encoder never emits `&`, so the
only `&` characters are the pair separators). -/
theorem query_string_format_only (q : BoldSpecQuery)
    (h1 : q.taxon = "") (h2 : q.geo = "") (h3 : q.ids = "") (h4 : q.bin = "")
    (h5 : q.container = "") (h6 : q.institution = "") (h7 : q.researchers = "")
    (hf : q.format ≠ "") :
    build_query_string q.toDict = "format=" ++ pyQuote q.format ∧
    (∀ c ∈ (build_query_string q.toDict).data, c ≠ '&') := by
  have hmain : build_query_string q.toDict = "format=" ++ pyQuote q.format := by
    simp only [build_query_string, BoldSpecQuery.toDict, h1, h2, h3, h4, h5, h6, h7]
    simp only [List.filter_cons, List.filter_nil, bne_self_eq_false, bne_iff_ne, ne_eq,
      if_false, Bool.false_eq_true, if_neg, hf, not_false_eq_true, if_true, if_pos,
      List.map_cons, List.map_nil]
    rfl
  refine ⟨hmain, ?_⟩
  rw [hmain]
  intro c hc heq
  subst heq
  rw [String.data_append] at hc
  rcases List.mem_append.mp hc with h | h
  · revert h
    decide
  · exact amp_not_mem_pyQuote q.format h

/-- Witness for `query_string_format_only` at the all-defaults query
(`format = "tsv"`). -/
theorem query_string_format_only_witness :
    build_query_string ({} : BoldSpecQuery).toDict
      = "format=" ++ pyQuote ({} : BoldSpecQuery).format ∧
    (∀ c ∈ (build_query_string ({} : BoldSpecQuery).toDict).data, c ≠ '&') :=
  query_string_format_only {} rfl rfl rfl rfl rfl rfl rfl (by decide)

/-- Successful TSV path of `base_fetch`: the parsed records, however many,
are dumped in full. -/
theorem base_fetch_tsv_ok (xmlParse : String → Except String Json)
    (kwargs : List (String × String)) (sv : String) (qp2 : List (String × String))
    (status : Nat) (chunks : List String) (records : List (List (String × String)))
    (hpop : dictPop (pyDict (DEFAULT_PARAMETERS ++ kwargs)) "search" = some (sv, qp2))
    (hst : 200 ≤ status ∧ status < 300)
    (hfmt : qp2.lookup "format" = some "tsv")
    (hparse : parseTsvChunks chunks = .ok records) :
    base_fetch xmlParse (fun _ => .success status chunks) kwargs
      = .ok (Json.dumps (Json.arr (records.map recordJson))) := by
  rw [base_fetch_pop _ _ _ _ _ hpop]
  simp only [runFetch, tryFetch, hfmt]
  rw [if_pos hst]
  simp only [if_true, hparse]

/-- C1 (amended): `base_fetch` applies no truncation policy whatsoever: for
every successful TSV fetch, whatever the parsed record count, the full
record sequence is serialized and returned unwrapped — there is no
2000-record cutoff, no `ResultEnvelope`, no `commentary` key. -/
theorem base_fetch_no_truncation (xmlParse : String → Except String Json)
    (kwargs : List (String × String)) (sv : String) (qp2 : List (String × String))
    (status : Nat) (chunks : List String) (records : List (List (String × String)))
    (hpop : dictPop (pyDict (DEFAULT_PARAMETERS ++ kwargs)) "search" = some (sv, qp2))
    (hst : 200 ≤ status ∧ status < 300)
    (hfmt : qp2.lookup "format" = some "tsv")
    (hparse : parseTsvChunks chunks = .ok records) :
    base_fetch xmlParse (fun _ => .success status chunks) kwargs
      = .ok (Json.dumps (Json.arr (records.map recordJson))) :=
  base_fetch_tsv_ok xmlParse kwargs sv qp2 status chunks records hpop hst hfmt hparse

/-- Witness for `base_fetch_no_truncation` at a two-line TSV body. -/
theorem base_fetch_no_truncation_witness :
    base_fetch xmlParseNone (fun _ => .success 200 ["a\n1"]) [("search", "specimen")]
      = .ok (Json.dumps (Json.arr (([[("a", "1")]]).map recordJson))) :=
  base_fetch_no_truncation xmlParseNone [("search", "specimen")] "specimen"
    [("format", "tsv")] 200 ["a\n1"] [[("a", "1")]] (by decide) (by decide) rfl rfl

/-- A TSV body consisting of the header line `h` followed by 2001 (empty)
data rows. -/
def tsvBody2001 : String := String.mk ('h' :: List.replicate 2002 '\n')

/-- C1 (counterexample): the claim fails on the code.  The body
`tsvBody2001` parses to 2001 records — more than the claimed 2000-record
cutoff — yet `base_fetch` returns the JSON dump of the full 2001-record
array, not an envelope: the serialized result is a JSON array (its first
character is `[`, whereas any object, in particular the claimed
`commentary`/`data` envelope, would serialize starting with a brace) and
it retains all 2001 records rather than the first 2000. -/
theorem tsv_2001_rows_no_envelope :
    parseTsvChunks [tsvBody2001] = .ok (List.replicate 2001 [("h", "")]) ∧
    (List.replicate 2001 ([("h", "")] : List (String × String))).length = 2001 ∧
    base_fetch xmlParseNone (fun _ => .success 200 [tsvBody2001]) [("search", "specimen")]
      = .ok (Json.dumps (Json.arr ((List.replicate 2001 [("h", "")]).map recordJson))) ∧
    ((List.replicate 2001 [("h", "")]).map recordJson).length = 2001 ∧
    (Json.dumps (Json.arr ((List.replicate 2001 [("h", "")]).map recordJson))).data.head?
      = some '[' := by
  have hparse : parseTsvChunks [tsvBody2001] = .ok (List.replicate 2001 [("h", "")]) :=
    parseTsv_headerBody 2001
  refine ⟨hparse, by rw [List.length_replicate], ?_,
    by rw [List.length_map, List.length_replicate], dumps_arr_head _⟩
  exact base_fetch_tsv_ok xmlParseNone [("search", "specimen")] "specimen"
    [("format", "tsv")] 200 [tsvBody2001] (List.replicate 2001 [("h", "")])
    (by decide) (by decide) rfl hparse

/-- C2 (amended): for each recognized tool, `call_tool` returns a single
text content whose text is a fixed prefix (`"Specimen returned:\n"` or
`"Specimen with sequences returned:\n"`) followed by the `json.dumps` of
the string `base_fetch` returned — which is itself already a JSON
serialization, so the payload carries a double-encoded JSON string after
a non-JSON prefix, not the serialized result value itself. -/
theorem call_tool_double_encodes (xmlParse : String → Except String Json)
    (transport : String → TransportOutcome)
    (arguments : List (String × Option String)) :
    (∃ s : String,
      base_fetch xmlParse transport (dictInsert (toolParams arguments) "search" "specimen")
        = .ok s ∧
      call_tool xmlParse transport BoldTools.SPECIMEN arguments
        = .ok [{ type := "text",
                 text := "Specimen returned:\n" ++ Json.dumps (Json.str s) }]) ∧
    (∃ s : String,
      base_fetch xmlParse transport (dictInsert (toolParams arguments) "search" "combined")
        = .ok s ∧
      call_tool xmlParse transport BoldTools.SEQUENCE_SPECIMEN arguments
        = .ok [{ type := "text",
                 text := "Specimen with sequences returned:\n" ++ Json.dumps (Json.str s) }]) := by
  constructor
  · obtain ⟨sv, qp2, hpop, hok⟩ := base_fetch_ok xmlParse transport
      (dictInsert (toolParams arguments) "search" "specimen")
      ((mem_keys_dictInsert _ "search" "specimen" "search").mpr (Or.inr rfl))
    refine ⟨_, hok, ?_⟩
    simp only [call_tool, if_true]
    rw [hok]
  · obtain ⟨sv, qp2, hpop, hok⟩ := base_fetch_ok xmlParse transport
      (dictInsert (toolParams arguments) "search" "combined")
      ((mem_keys_dictInsert _ "search" "combined" "search").mpr (Or.inr rfl))
    refine ⟨_, hok, ?_⟩
    simp only [call_tool]
    rw [if_neg (show ¬(BoldTools.SEQUENCE_SPECIMEN = BoldTools.SPECIMEN) by decide)]
    simp only [if_true]
    rw [hok]

set_option maxRecDepth 40000 in
/-- C2 (counterexample): the claim fails on the code at a concrete call.
For a successful two-column TSV fetch the text payload is the prefix
`"Specimen returned:\n"` followed by a JSON-encoded *string* (the
character after the prefix is `"`), i.e. the `base_fetch` result
serialized a second time; it is not equal to the single JSON
serialization of the parsed record sequence, so parsing the payload once
cannot yield the sequence itself. -/
theorem call_tool_payload_not_single_json :
    call_tool xmlParseNone (fun _ => .success 200 ["a\tb\n1\t2"]) "specimen-search"
        [("taxon", some "Aves")]
      = .ok [{ type := "text",
               text := "Specimen returned:\n\"[\x7b\\\"a\\\": \\\"1\\\", \\\"b\\\": \\\"2\\\"\x7d]\"" }] ∧
    ("Specimen returned:\n\"[\x7b\\\"a\\\": \\\"1\\\", \\\"b\\\": \\\"2\\\"\x7d]\"").take 19
      = "Specimen returned:\n" ∧
    (("Specimen returned:\n\"[\x7b\\\"a\\\": \\\"1\\\", \\\"b\\\": \\\"2\\\"\x7d]\"").drop 19).take 1
      = "\"" ∧
    "Specimen returned:\n\"[\x7b\\\"a\\\": \\\"1\\\", \\\"b\\\": \\\"2\\\"\x7d]\""
      ≠ Json.dumps (Json.arr [recordJson [("a", "1"), ("b", "2")]]) := by
  refine ⟨rfl, by decide, by decide, by decide⟩
